import Mathlib

/-!
Shallow embedding of `src/LivyInteractiveSessionClient.py`.

The HTTP transport is modelled as oracle parameters: every remote
response the code reads is a parameter of the embedded function, and the
unbounded `while True` polling loops become a fuel-indexed driver
`runPoll` over a per-iteration step function translated line by line
from the source.  `none` from the driver means the fuel ran out while
the loop was still polling; it never stands for a returned value or a
raised error.

Python dictionaries reached through `.get` are modelled as association
lists with an `Option`-valued lookup; a field the code reads with
`.get` that may be absent is `Option`-typed.  An attribute access on a
value that may be `None` (Python `AttributeError`) and an attribute
read on `self` before `__init__` assigned it are modelled by the
`attributeError` error constructor, since both propagate out of the
method exactly like the explicitly raised exceptions.  The error
taxonomy names follow the specification (section 7), which maps the
bare `Exception` / `requests.HTTPError` raises of the source to
phase-specific error kinds.
-/

namespace Livy

/-- Error taxonomy of the client, following section 7 of the spec, plus
`attributeError` for Python `AttributeError` propagating out of a
method (an attribute read on `None` or on a not-yet-assigned field). -/
inductive LivyError where
  | sessionCreationError (statusCode : Nat)
  | sessionInitializationError
  | sessionRemovalError (statusCode : Nat)
  | statementSubmissionError (statusCode : Nat)
  | statementExecutionError
  | attributeError (attr : String)
  deriving DecidableEq, Repr

/-- HTTP 200, the value of `requests.codes.ok`. -/
def codes_ok : Nat := 200

/-- HTTP 201, the value of `requests.codes.created`. -/
def codes_created : Nat := 201

/-- Response to a POST request as the source reads it: the HTTP status
code and the `id` field of the decoded JSON body (read with
`r.json()['id']` only on the created path). -/
structure PostResponse where
  status_code : Nat
  id : String
  deriving DecidableEq, Repr

/-- Outcome of one iteration of a `while True` polling loop body:
return a value, fall through to the next iteration after sleeping
`sleepSeconds` (0 when the body reaches its end with no branch taken),
or raise an error. -/
inductive PollStep (α : Type) where
  | done (a : α)
  | next (sleepSeconds : Nat)
  | failed (e : LivyError)
  deriving DecidableEq, Repr

/-- Fuel-indexed driver for a `while True` polling loop: `polls i` is
the decoded response of the i-th GET, `step` the loop body.  Returns
`none` when the fuel is exhausted while still polling. -/
def runPoll {R α : Type} (polls : Nat → R) (step : R → PollStep α) :
    Nat → Nat → Option (Except LivyError α)
  | _, 0 => none
  | i, fuel + 1 =>
    match step (polls i) with
    | .done a => some (.ok a)
    | .failed e => some (.error e)
    | .next _ => runPoll polls step (i + 1) fuel

/-- Body of the session-creation polling loop, lines 50-57 of the
source: `session_state` is `req.json().get("state")` (`none` when the
`state` field is absent). -/
def createPollStep (session_id : String) (session_state : Option String) :
    PollStep String :=
  if session_state = some "idle" then
    .done session_id
  else if session_state = some "starting" ∨ session_state = some "not_started" then
    .next 15
  else
    .failed .sessionInitializationError

/-- The `create_session` method, lines 29-59.  `headers` is the value
of `self.headers` at call time (`none` when the attribute is not yet
assigned: the POST on line 44 reads it, so an unset attribute raises
`AttributeError` before any request is made).  `r` is the response to
`POST /sessions`, `polls i` the state field of the i-th
`GET /sessions/{id}` response. -/
def create_session (headers : Option (List (String × String)))
    (r : PostResponse) (polls : Nat → Option String) (fuel : Nat) :
    Option (Except LivyError String) :=
  match headers with
  | none => some (.error (.attributeError "headers"))
  | some _ =>
    if r.status_code = codes_created then
      runPoll polls (createPollStep r.id) 0 fuel
    else
      some (.error (.sessionCreationError r.status_code))

/-- The fields of a constructed `LivyInteractiveSessionClient`. -/
structure LivyInteractiveSessionClient where
  livy_url : String
  jars : List String
  config : List (String × String)
  session_id : String
  headers : List (String × String)
  deriving DecidableEq, Repr

/-- The header mapping assigned on line 27 of the source. -/
def default_headers : List (String × String) :=
  [("Content-Type", "application/json")]

/-- The `__init__` constructor, lines 11-27, in source order: it
assigns `livy_url`, `jars` and `config`, then calls `create_session`
with `self.headers` still unassigned (`none`), and only afterwards
would assign `headers`. -/
def init (livy_url : String) (config : List (String × String))
    (jars : List String) (r : PostResponse) (polls : Nat → Option String)
    (fuel : Nat) : Option (Except LivyError LivyInteractiveSessionClient) :=
  match create_session none r polls fuel with
  | none => none
  | some (.error e) => some (.error e)
  | some (.ok sid) => some (.ok ⟨livy_url, jars, config, sid, default_headers⟩)

/-- The `output` object of a statement poll response: `status` and
`data` as read with `.get` (absent fields are `none`). -/
structure OutputObj where
  status : Option String
  data : Option (List (String × String))
  deriving DecidableEq, Repr

/-- One decoded response of `GET /sessions/{sid}/statements/{stid}`:
the `state` field and the `output` object, both read with `.get`. -/
structure StatementPollResponse where
  state : Option String
  output : Option OutputObj
  deriving DecidableEq, Repr

/-- Python `dict.get` on a string-valued mapping. -/
def dictGet (d : List (String × String)) (key : String) : Option String :=
  match d.find? (fun p => p.fst == key) with
  | none => none
  | some p => some p.snd

/-- Body of the output-retrieval polling loop, lines 110-123 of the
source, branch for branch: `error` raises, `running`/`waiting` sleep
15 and re-poll, `available` reads `output.get("status")` (an absent
`output` is `None` and the attribute access raises), on `"ok"` reads
`output.get("data").get("text/plain")` (an absent `data` raises) and
returns it, on any other status raises; any unrecognized state reaches
the end of the body and the `while True` loop re-polls with no sleep. -/
def getOutputStep (r : StatementPollResponse) : PollStep (Option String) :=
  if r.state = some "error" then
    .failed .statementExecutionError
  else if r.state = some "running" ∨ r.state = some "waiting" then
    .next 15
  else if r.state = some "available" then
    match r.output with
    | none => .failed (.attributeError "get")
    | some output =>
      if output.status = some "ok" then
        match output.data with
        | none => .failed (.attributeError "get")
        | some data => .done (dictGet data "text/plain")
      else
        .failed .statementExecutionError
  else
    .next 0

/-- The `get_output` method, lines 94-123: the polling loop over the
statement's poll responses. -/
def get_output (polls : Nat → StatementPollResponse) (fuel : Nat) :
    Option (Except LivyError (Option String)) :=
  runPoll polls getOutputStep 0 fuel

/-- The `submit_statement` method, lines 72-92: `r` is the response to
the statement POST; on created status the statement id is read from
the body and `get_output` is entered for that id (`polls stid i` is
the i-th poll response for statement `stid`); otherwise it raises with
the received status code. -/
def submit_statement (r : PostResponse)
    (polls : String → Nat → StatementPollResponse) (fuel : Nat) :
    Option (Except LivyError (Option String)) :=
  if r.status_code = codes_created then
    get_output (polls r.id) fuel
  else
    some (.error (.statementSubmissionError r.status_code))

/-- The `remove_session` method, lines 61-70: `status_code` is the
status of the DELETE response. -/
def remove_session (status_code : Nat) : Except LivyError Unit :=
  if status_code = codes_ok then
    .ok ()
  else
    .error (.sessionRemovalError status_code)

/-- The URL `f"{self.livy_url}/sessions/{self.session_id}"` built by
`remove_session`, and the prefix of the statement URLs. -/
def sessionUrl (c : LivyInteractiveSessionClient) : String :=
  c.livy_url ++ "/sessions/" ++ c.session_id

/-- State-passing form of `remove_session`: `transport` maps the
DELETE URL to the response status code; the second component is the
client object after the call. -/
def client_remove_session (c : LivyInteractiveSessionClient)
    (transport : String → Nat) :
    Except LivyError Unit × LivyInteractiveSessionClient :=
  (remove_session (transport (sessionUrl c)), c)

/-- State-passing form of `get_output`: `transport i url` is the
decoded body of the i-th GET to `url`. -/
def client_get_output (c : LivyInteractiveSessionClient)
    (statement_id : String) (transport : Nat → String → StatementPollResponse)
    (fuel : Nat) :
    Option (Except LivyError (Option String)) × LivyInteractiveSessionClient :=
  (runPoll (fun i => transport i (sessionUrl c ++ "/statements/" ++ statement_id))
    getOutputStep 0 fuel, c)

/-- State-passing form of `submit_statement`: `post url body` is the
response to the statement POST, `transport` the poll oracle passed on
to `client_get_output`. -/
def client_submit_statement (c : LivyInteractiveSessionClient)
    (code : String) (post : String → String → PostResponse)
    (transport : Nat → String → StatementPollResponse) (fuel : Nat) :
    Option (Except LivyError (Option String)) × LivyInteractiveSessionClient :=
  let r := post (sessionUrl c ++ "/statements") code
  if r.status_code = codes_created then
    client_get_output c r.id transport fuel
  else
    (some (.error (.statementSubmissionError r.status_code)), c)

/-- Helper: the body of the output-retrieval loop never raises
`StatementSubmissionError` (only `submit_statement` itself does). -/
theorem getOutputStep_ne_submission (r : StatementPollResponse) (s : Nat) :
    getOutputStep r ≠ PollStep.failed (LivyError.statementSubmissionError s) := by
  unfold getOutputStep
  split
  · simp
  · split
    · simp
    · split
      · split
        · simp
        · split
          · split
            · simp
            · simp
          · simp
      · simp

/-- Helper: the output-retrieval polling loop never raises
`StatementSubmissionError`, whatever the oracle answers. -/
theorem runPoll_getOutput_ne_submission (polls : Nat → StatementPollResponse)
    (s : Nat) : ∀ fuel i : Nat,
    runPoll polls getOutputStep i fuel
      ≠ some (.error (.statementSubmissionError s)) := by
  intro fuel
  induction fuel with
  | zero => intro i; simp [runPoll]
  | succ n ih =>
    intro i
    unfold runPoll
    cases h : getOutputStep (polls i) with
    | done a => simp
    | next k => simpa using ih (i + 1)
    | failed e =>
      simp only [Option.some.injEq]
      intro hcontra
      exact getOutputStep_ne_submission (polls i) s
        (h.trans (by simpa using hcontra))

/-- C1: the claim says that when the creation POST reports created
status and a poll observes state idle, the constructor completes
successfully with the session identifier stored.  In the source,
`__init__` assigns `self.headers` on line 27, after the call
`self.session_id = self.create_session()` on line 26, yet
`create_session` reads `self.headers` on line 44 to build the POST; so
every construction raises `AttributeError` before any request is made,
whatever the remote service would answer. -/
theorem init_always_raises_attribute_error (livy_url : String)
    (config : List (String × String)) (jars : List String)
    (r : PostResponse) (polls : Nat → Option String) (fuel : Nat) :
    init livy_url config jars r polls fuel
      = some (.error (.attributeError "headers")) := rfl

/-- C2: in the session-creation polling loop, state idle returns the
session identifier immediately (one poll, nothing further), states
starting and not_started sleep 15 and re-poll, and any other observed
state raises `SessionInitializationError`. -/
theorem createPollStep_trichotomy (sid : String)
    (polls : Nat → Option String) (state : Option String) (i fuel : Nat) :
    (state = some "idle" → createPollStep sid state = .done sid)
  ∧ (state = some "starting" ∨ state = some "not_started" →
      createPollStep sid state = .next 15)
  ∧ (state ≠ some "idle" → state ≠ some "starting" →
      state ≠ some "not_started" →
      createPollStep sid state = .failed .sessionInitializationError)
  ∧ (polls i = some "idle" →
      runPoll polls (createPollStep sid) i (fuel + 1) = some (.ok sid))
  ∧ ((polls i = some "starting" ∨ polls i = some "not_started") →
      runPoll polls (createPollStep sid) i (fuel + 1)
        = runPoll polls (createPollStep sid) (i + 1) fuel) := by
  refine ⟨?_, ?_, ?_, ?_, ?_⟩
  · intro h; simp [createPollStep, h]
  · intro h
    rcases h with h | h <;> simp [createPollStep, h]
  · intro h1 h2 h3
    simp [createPollStep, h1]
    constructor
    · intro h; exact absurd h (by simpa using h2)
    · intro h; exact absurd h (by simpa using h3)
  · intro h
    unfold runPoll
    simp [createPollStep, h]
  · intro h
    have hs : createPollStep sid (polls i) = .next 15 := by
      rcases h with h | h <;> simp [createPollStep, h]
    rw [runPoll, hs]

/-- Witness for C2 at concrete states. -/
theorem createPollStep_trichotomy_witness :
    createPollStep "0" (some "idle") = .done "0"
  ∧ createPollStep "0" (some "starting") = .next 15
  ∧ createPollStep "0" (some "not_started") = .next 15
  ∧ createPollStep "0" (some "dead") = .failed .sessionInitializationError
  ∧ runPoll (fun _ => some "idle") (createPollStep "0") 0 1 = some (.ok "0") :=
  ⟨(createPollStep_trichotomy "0" (fun _ => some "idle") (some "idle") 0 0).1 rfl,
   (createPollStep_trichotomy "0" (fun _ => some "idle") (some "starting") 0 0).2.1
      (Or.inl rfl),
   (createPollStep_trichotomy "0" (fun _ => some "idle") (some "not_started") 0 0).2.1
      (Or.inr rfl),
   (createPollStep_trichotomy "0" (fun _ => some "idle") (some "dead") 0 0).2.2.1
      (by decide) (by decide) (by decide),
   (createPollStep_trichotomy "0" (fun _ => some "idle") none 0 0).2.2.2.1 rfl⟩

/-- C6: when the creation POST does not report created (201) status,
`create_session` raises `SessionCreationError` carrying the received
status code, for every poll oracle and fuel: no poll is consulted. -/
theorem create_session_non_created (hdrs : List (String × String))
    (r : PostResponse) (polls : Nat → Option String) (fuel : Nat)
    (h : r.status_code ≠ codes_created) :
    create_session (some hdrs) r polls fuel
      = some (.error (.sessionCreationError r.status_code)) := by
  simp [create_session, h]

/-- Witness for C6 at status 500. -/
theorem create_session_non_created_witness :
    create_session (some default_headers) ⟨500, "0"⟩ (fun _ => some "idle") 9
      = some (.error (.sessionCreationError 500)) :=
  create_session_non_created default_headers ⟨500, "0"⟩ (fun _ => some "idle") 9
    (by decide)

/-- C8: `remove_session` returns nothing and raises nothing exactly
when the DELETE status is 200, and raises `SessionRemovalError`
carrying the received status code otherwise. -/
theorem remove_session_cases (s : Nat) :
    (s = codes_ok → remove_session s = .ok ())
  ∧ (s ≠ codes_ok → remove_session s = .error (.sessionRemovalError s)) := by
  constructor
  · intro h; simp [remove_session, h]
  · intro h; simp [remove_session, h]

/-- Witness for C8: success at 200, failure at 404 (scenario 4). -/
theorem remove_session_cases_witness :
    remove_session 200 = .ok ()
  ∧ remove_session 404 = .error (.sessionRemovalError 404) :=
  ⟨(remove_session_cases 200).1 rfl, (remove_session_cases 404).2 (by decide)⟩

/-- C3: on a poll response with state available and output status ok,
the loop body returns `output.data["text/plain"]` unchanged (Python
`dict.get`), and the polling loop returns that value. -/
theorem getOutput_available_ok_returns_text (r : StatementPollResponse)
    (output : OutputObj) (data : List (String × String))
    (polls : Nat → StatementPollResponse) (i fuel : Nat)
    (hstate : r.state = some "available") (hout : r.output = some output)
    (hok : output.status = some "ok") (hdata : output.data = some data) :
    getOutputStep r = .done (dictGet data "text/plain")
  ∧ (polls i = r →
      runPoll polls getOutputStep i (fuel + 1)
        = some (.ok (dictGet data "text/plain"))) := by
  have hstep : getOutputStep r = .done (dictGet data "text/plain") := by
    simp [getOutputStep, hstate, hout, hok, hdata]
  refine ⟨hstep, fun hp => ?_⟩
  rw [runPoll, hp, hstep]

/-- Witness for C3: scenario 3 of the spec, result "2". -/
theorem getOutput_available_ok_returns_text_witness :
    getOutputStep ⟨some "available", some ⟨some "ok", some [("text/plain", "2")]⟩⟩
      = .done (some "2")
  ∧ runPoll (fun _ => ⟨some "available", some ⟨some "ok", some [("text/plain", "2")]⟩⟩)
      getOutputStep 0 1 = some (.ok (some "2")) := by
  have h := getOutput_available_ok_returns_text
    ⟨some "available", some ⟨some "ok", some [("text/plain", "2")]⟩⟩
    ⟨some "ok", some [("text/plain", "2")]⟩ [("text/plain", "2")]
    (fun _ => ⟨some "available", some ⟨some "ok", some [("text/plain", "2")]⟩⟩)
    0 0 rfl rfl rfl rfl
  exact ⟨h.1, h.2 rfl⟩

/-- C4: a poll response with state error, and one with state available
whose output status is not ok, both raise `StatementExecutionError`. -/
theorem getOutput_failure_states (r : StatementPollResponse) (output : OutputObj)
    (herr : r.state = some "error" ∨
      (r.state = some "available" ∧ r.output = some output ∧
        output.status ≠ some "ok")) :
    getOutputStep r = .failed .statementExecutionError := by
  rcases herr with h | ⟨h1, h2, h3⟩
  · simp [getOutputStep, h]
  · simp [getOutputStep, h1, h2, h3]

/-- Witness for C4 at concrete responses. -/
theorem getOutput_failure_states_witness :
    getOutputStep ⟨some "error", none⟩ = .failed .statementExecutionError
  ∧ getOutputStep ⟨some "available", some ⟨some "error", none⟩⟩
      = .failed .statementExecutionError :=
  ⟨getOutput_failure_states ⟨some "error", none⟩ ⟨none, none⟩ (Or.inl rfl),
   getOutput_failure_states ⟨some "available", some ⟨some "error", none⟩⟩
     ⟨some "error", none⟩ (Or.inr ⟨rfl, rfl, by decide⟩)⟩

/-- C5: on a poll response whose state is outside
running/waiting/error/available, the loop body neither returns nor
raises: it falls through, and the loop polls again (with no sleep). -/
theorem getOutput_unrecognized_falls_through (r : StatementPollResponse)
    (polls : Nat → StatementPollResponse) (i fuel : Nat)
    (h1 : r.state ≠ some "running") (h2 : r.state ≠ some "waiting")
    (h3 : r.state ≠ some "error") (h4 : r.state ≠ some "available") :
    getOutputStep r = .next 0
  ∧ (polls i = r →
      runPoll polls getOutputStep i (fuel + 1)
        = runPoll polls getOutputStep (i + 1) fuel) := by
  have hstep : getOutputStep r = .next 0 := by
    simp [getOutputStep, h1, h2, h3, h4]
  refine ⟨hstep, fun hp => ?_⟩
  rw [runPoll, hp, hstep]

/-- Witness for C5 at the unhandled state "cancelled". -/
theorem getOutput_unrecognized_falls_through_witness :
    getOutputStep ⟨some "cancelled", none⟩ = .next 0 :=
  (getOutput_unrecognized_falls_through ⟨some "cancelled", none⟩
    (fun _ => ⟨some "cancelled", none⟩) 0 0
    (by decide) (by decide) (by decide) (by decide)).1

/-- C7: `submit_statement` raises `StatementSubmissionError` with the
received status code exactly when the POST status is not created
(201); on created status it reads the statement id from the response
and returns the result of the output-retrieval loop for that id. -/
theorem submit_statement_cases (r : PostResponse)
    (polls : String → Nat → StatementPollResponse) (fuel : Nat) :
    (r.status_code ≠ codes_created →
      submit_statement r polls fuel
        = some (.error (.statementSubmissionError r.status_code)))
  ∧ (r.status_code = codes_created →
      submit_statement r polls fuel = get_output (polls r.id) fuel)
  ∧ (∀ s : Nat,
      submit_statement r polls fuel
          = some (.error (.statementSubmissionError s)) →
      r.status_code ≠ codes_created ∧ s = r.status_code) := by
  refine ⟨?_, ?_, ?_⟩
  · intro h; simp [submit_statement, h]
  · intro h; simp [submit_statement, h]
  · intro s hs
    by_cases h : r.status_code = codes_created
    · exfalso
      simp only [submit_statement, if_pos h, get_output] at hs
      exact runPoll_getOutput_ne_submission (polls r.id) s fuel 0 hs
    · have hv : r.status_code = s := by
        simp only [submit_statement, if_neg h] at hs
        simpa using hs
      exact ⟨h, hv.symm⟩

/-- Witness for C7: a rejected submission with status 404. -/
theorem submit_statement_cases_witness :
    submit_statement ⟨404, "5"⟩ (fun _ _ => ⟨some "waiting", none⟩) 3
      = some (.error (.statementSubmissionError 404)) :=
  (submit_statement_cases ⟨404, "5"⟩ (fun _ _ => ⟨some "waiting", none⟩) 3).1
    (by decide)

/-- C9: on state available with output status ok but no "text/plain"
key in the data mapping, the loop returns `None` (not a string) and
does not raise `StatementExecutionError`. -/
theorem getOutput_missing_text_plain_returns_none (r : StatementPollResponse)
    (output : OutputObj) (data : List (String × String))
    (polls : Nat → StatementPollResponse) (i fuel : Nat)
    (hstate : r.state = some "available") (hout : r.output = some output)
    (hok : output.status = some "ok") (hdata : output.data = some data)
    (hmiss : dictGet data "text/plain" = none) :
    getOutputStep r = .done none
  ∧ (polls i = r →
      runPoll polls getOutputStep i (fuel + 1) = some (.ok none)) := by
  have hstep : getOutputStep r = .done none := by
    simp [getOutputStep, hstate, hout, hok, hdata, hmiss]
  refine ⟨hstep, fun hp => ?_⟩
  rw [runPoll, hp, hstep]

/-- Witness for C9 with an empty data mapping. -/
theorem getOutput_missing_text_plain_returns_none_witness :
    getOutputStep ⟨some "available", some ⟨some "ok", some []⟩⟩ = .done none
  ∧ runPoll (fun _ => ⟨some "available", some ⟨some "ok", some []⟩⟩)
      getOutputStep 0 1 = some (.ok none) := by
  have h := getOutput_missing_text_plain_returns_none
    ⟨some "available", some ⟨some "ok", some []⟩⟩ ⟨some "ok", some []⟩ []
    (fun _ => ⟨some "available", some ⟨some "ok", some []⟩⟩) 0 0
    rfl rfl rfl rfl rfl
  exact ⟨h.1, h.2 rfl⟩

/-- C10: `remove_session`, `get_output` and `submit_statement` leave
every field of the client object unchanged, whether the call returns a
value or raises: the source never assigns to `self` outside
`__init__`, so the state-passing embeddings return the object as it
was. -/
theorem client_methods_preserve_fields (c : LivyInteractiveSessionClient)
    (code statement_id : String) (delete_transport : String → Nat)
    (post : String → String → PostResponse)
    (transport : Nat → String → StatementPollResponse) (fuel : Nat) :
    (client_remove_session c delete_transport).2 = c
  ∧ (client_get_output c statement_id transport fuel).2 = c
  ∧ (client_submit_statement c code post transport fuel).2 = c := by
  refine ⟨rfl, rfl, ?_⟩
  unfold client_submit_statement
  dsimp only
  split
  · rfl
  · rfl

end Livy
